import Mathlib

/-!
Shallow embedding of `src/src/webp.imageio/webpinput.cpp` (class `WebpInput`).

The external collaborators (libwebp demuxer and decoder, file I/O) are
modelled as oracles inside the data model:

* `Container` is the result of a successful `WebPDemux` call: canvas size and
  the ordered list of frames.  `Frame.decodesTo` is the oracle for
  `WebPDecodeRGBA` on that frame's compressed fragment: `some bytes` when the
  decoder succeeds with that RGBA raster, `none` when it fails (returns NULL).
* `WebpState` mirrors the fields of class `WebpInput` plus ghost
  instrumentation: an explicit heap of live decoded buffers (`buffers`), the
  log of buffers passed to `free` (`freed`), the log of demuxer handles passed
  to `WebPDemuxDelete` (`demuxDeleted`), a decode-call counter
  (`decodeCount`), and a per-buffer count of how many times the
  color-normalization pass of `open` ran over it (`Buf.normCount`).
  The numeric effect of that pass on the raster is modelled separately by
  `normalizePixelBytes` over the reals, because the C++ code performs it in
  float via ImageBufAlgo; the state machine tracks only that (and when) the
  pass ran, which is what the lifecycle claims are about.
-/

namespace Webp

/-- One frame record of the demuxed container: duration in ms, and the
decoder oracle for its compressed fragment. -/
structure Frame where
  duration : Int
  decodesTo : Option (List Nat)
deriving DecidableEq

/-- Result of a successful `WebPDemux`: canvas size and the frame stream. -/
structure Container where
  canvasWidth : Nat
  canvasHeight : Nat
  frames : List Frame
deriving DecidableEq

/-- The fields of `WebPIterator` that the code reads: `num_frames`,
`duration`, and the frame whose `fragment` is decoded. -/
structure Iter where
  num_frames : Nat
  duration : Int
  fragment : Frame
deriving DecidableEq

/-- A live heap buffer holding a decoded RGBA raster.  `normCount` is ghost:
how many times the color-normalization pass has been applied to it. -/
structure Buf where
  id : Nat
  content : List Nat
  normCount : Nat
deriving DecidableEq

/-- State of one `WebpInput` session.  Fields named `m_...` mirror the C++
members; the rest is ghost instrumentation described in the file header. -/
structure WebpState where
  container : Container
  m_demux : Option Nat
  m_subimage : Int
  m_decoded_image : Option Nat
  m_iter : Option Iter
  m_scanline_size : Nat
  specWidth : Nat
  specHeight : Nat
  m_file : Bool
  movie : Bool
  framesPerSecond : Option (Int × Int)
  buffers : List Buf
  freed : List Nat
  demuxDeleted : List Nat
  nextId : Nat
  decodeCount : Nat
deriving DecidableEq

/-- `WebPDemuxGetFrame(m_demux, frame_num, &m_iter)`: fails when `m_demux`
is NULL or `frame_num` is outside `[1, frame_count]`; otherwise yields the
iterator positioned at that 1-based frame. -/
def demuxGetFrame (s : WebpState) (frame_num : Int) : Option Iter :=
  match s.m_demux with
  | none => none
  | some _ =>
    if 1 ≤ frame_num ∧ frame_num ≤ (s.container.frames.length : Int) then
      match s.container.frames.get? (frame_num - 1).toNat with
      | some f => some ⟨s.container.frames.length, f.duration, f⟩
      | none => none
    else none

/-- `WebpInput::close` (webpinput.cpp lines 216-232): closes the file, frees
`m_decoded_image` and nulls it, releases the iterator, and calls
`WebPDemuxDelete(m_demux)` when `m_demux` is non-NULL.  The code does NOT
null `m_demux` afterwards, and never touches `m_subimage`; the model mirrors
both. -/
def close (s : WebpState) : Bool × WebpState :=
  (true,
    { s with
        m_file := false,
        buffers := match s.m_decoded_image with
                   | some id => s.buffers.filter (fun b => b.id ≠ id)
                   | none => s.buffers,
        freed := match s.m_decoded_image with
                 | some id => s.freed ++ [id]
                 | none => s.freed,
        m_decoded_image := none,
        m_iter := none,
        demuxDeleted := match s.m_demux with
                        | some d => s.demuxDeleted ++ [d]
                        | none => s.demuxDeleted })

/-- `WebpInput::seek_subimage` (webpinput.cpp lines 164-198).  Mirrors the
C++ ordering exactly: reject negative subimage / nonzero miplevel; shortcut
when `m_subimage == subimage`; otherwise `WebPDemuxGetFrame`, then commit
`m_subimage` and `m_iter`, then `WebPDecodeRGBA` (overwriting
`m_decoded_image` with the result, NULL on failure, without freeing the
previous buffer), and `close()` on decode failure. -/
def seek_subimage (s : WebpState) (subimage miplevel : Int) : Bool × WebpState :=
  if subimage < 0 ∨ miplevel ≠ 0 then (false, s)
  else if s.m_subimage = subimage then (true, s)
  else
    match demuxGetFrame s (subimage + 1) with
    | some it =>
        match it.fragment.decodesTo with
        | none =>
            (false,
             (close { s with m_iter := some it, m_subimage := subimage,
                             m_decoded_image := none,
                             decodeCount := s.decodeCount + 1 }).2)
        | some pix =>
            (true, { s with m_iter := some it, m_subimage := subimage,
                            m_decoded_image := some s.nextId,
                            buffers := s.buffers ++ [⟨s.nextId, pix, 0⟩],
                            nextId := s.nextId + 1,
                            decodeCount := s.decodeCount + 1 })
    | none => (false, s)

/-- Content of the live buffer with the given id, if any. -/
def bufLookup (s : WebpState) (id : Nat) : Option (List Nat) :=
  (s.buffers.find? (fun b => b.id = id)).map Buf.content

/-- `WebpInput::read_native_scanline` (webpinput.cpp lines 201-213): seek,
bounds-check `y` against `m_spec.height`, then memcpy `m_scanline_size`
bytes from offset `y * m_scanline_size` of `m_decoded_image`.  The third
component is the bytes copied into the caller buffer (`none` = nothing
copied; the two `(true, s1, none)` branches are the undefined-behavior
memcpy from a NULL or dangling pointer, which no proved claim exercises). -/
def read_native_scanline (s : WebpState) (subimage miplevel y : Int) :
    Bool × WebpState × Option (List Nat) :=
  match seek_subimage s subimage miplevel with
  | (false, s1) => (false, s1, none)
  | (true, s1) =>
    if y < 0 ∨ (s1.specHeight : Int) ≤ y then (false, s1, none)
    else
      match s1.m_decoded_image with
      | some id =>
          match bufLookup s1 id with
          | some content =>
              (true, s1,
               some ((content.drop (y.toNat * s1.m_scanline_size)).take
                      s1.m_scanline_size))
          | none => (true, s1, none)
      | none => (true, s1, none)

/-- `WebpInput::current_subimage` (webpinput.cpp lines 28-32). -/
def current_subimage (s : WebpState) : Int :=
  s.m_subimage

/-- The color-normalization pass of `open` (webpinput.cpp lines 152-159):
an ImageBuf is wrapped around `m_decoded_image` over the full canvas and
pow/premult/pow run over it.  The state model records one application on the
buffer `m_decoded_image` points at; the per-pixel arithmetic is
`normalizePixelBytes` below. -/
def applyNormalize (s : WebpState) : WebpState :=
  match s.m_decoded_image with
  | some id =>
      { s with buffers := s.buffers.map (fun b =>
          if b.id = id then { b with normCount := b.normCount + 1 } else b) }
  | none => s

/-- The state of a fresh `WebpInput` after `init()` (webpinput.cpp lines
48-56), on a session whose demux oracle is `c`. -/
def initState (c : Container) : WebpState :=
  { container := c, m_demux := none, m_subimage := -1, m_decoded_image := none,
    m_iter := none, m_scanline_size := 0, specWidth := 0, specHeight := 0,
    m_file := false, movie := false, framesPerSecond := none,
    buffers := [], freed := [], demuxDeleted := [], nextId := 0,
    decodeCount := 0 }

/-- The session state at webpinput.cpp line 140: the file checks passed,
`WebPDemux` succeeded with container `c`, `probedWidth` is the width that
`WebPGetInfo` reported from the header (it sets `m_scanline_size`), and the
canvas spec has been built. -/
def openInitState (c : Container) (probedWidth : Nat) : WebpState :=
  { initState c with
      m_file := true, m_demux := some 0,
      m_scanline_size := probedWidth * 4,
      specWidth := c.canvasWidth, specHeight := c.canvasHeight }

/-- `WebpInput::open` (webpinput.cpp lines 60-162) from line 140 on:
`seek_subimage(0, 0)` (failure aborts open), then the animation attributes
when `m_iter.num_frames > 1`, then the color-normalization pass over
`m_decoded_image`. -/
def openParsed (c : Container) (probedWidth : Nat) : Bool × WebpState :=
  let s0 := openInitState c probedWidth
  let r := seek_subimage s0 0 0
  if r.1 then
    let s1 := r.2
    let s2 := match s1.m_iter with
      | some it =>
          if 1 < it.num_frames then
            { s1 with movie := true,
                      framesPerSecond := some (1000, it.duration) }
          else s1
      | none => s1
    (true, applyNormalize s2)
  else (false, r.2)

/-!
Per-pixel arithmetic of the normalization pass (webpinput.cpp lines
154-159): `ImageBufAlgo::pow(.., 2.2f)` over the RGB channels (ROI channels
0..2), `ImageBufAlgo::premult` (multiply R, G, B by alpha; alpha untouched),
`ImageBufAlgo::pow(.., 1/2.2f)` over the RGB channels again.  The float
arithmetic is modelled over the reals, on channel values normalized to the
unit interval as ImageBufAlgo does for UINT8 buffers. -/

/-- One RGB channel value `v` through pow 2.2, premult by alpha `a`,
pow 1/2.2. -/
noncomputable def normalizeChannel (v a : ℝ) : ℝ :=
  ((v ^ (2.2 : ℝ)) * a) ^ (1 / (2.2 : ℝ))

/-- One RGBA pixel through the normalization pass: the ROI covers only
channels 0..2, and premult leaves alpha unchanged, so alpha passes through. -/
noncomputable def normalizePixel (r g b a : ℝ) : ℝ × ℝ × ℝ × ℝ :=
  (normalizeChannel r a, normalizeChannel g a, normalizeChannel b a, a)

/-- An 8-bit sample normalized to the unit interval. -/
noncomputable def byteToUnit (x : Nat) : ℝ := x / 255

/-- The normalization pass on one 8-bit RGBA pixel. -/
noncomputable def normalizePixelBytes (r g b a : Nat) : ℝ × ℝ × ℝ × ℝ :=
  normalizePixel (byteToUnit r) (byteToUnit g) (byteToUnit b) (byteToUnit a)

/-!
Concrete sessions used as witnesses and counterexamples: a 1x1 canvas with
two frames that both decode (`cDemo`), and one whose second frame fails to
decode (`cFail`). -/

/-- A frame whose fragment decodes to a single opaque red pixel. -/
def frameA : Frame := ⟨40, some [255, 0, 0, 255]⟩

/-- A frame whose fragment decodes to a single opaque green pixel. -/
def frameB : Frame := ⟨40, some [0, 255, 0, 255]⟩

/-- A frame on which `WebPDecodeRGBA` fails (returns NULL). -/
def frameBad : Frame := ⟨40, none⟩

/-- A 1x1-canvas animated container with two decodable frames. -/
def cDemo : Container := ⟨1, 1, [frameA, frameB]⟩

/-- A 1x1-canvas animated container whose second frame fails to decode. -/
def cFail : Container := ⟨1, 1, [frameA, frameBad]⟩

/-- The session state after a successful `open` on `cDemo`. -/
def sDemo : WebpState := (openParsed cDemo 1).2

/-- The session state after a successful `open` on `cFail`. -/
def sFail : WebpState := (openParsed cFail 1).2

/-! Helper lemmas about the operations. -/

theorem seek_shortcut (s : WebpState) (k : Int) (h0 : 0 ≤ k)
    (h : s.m_subimage = k) : seek_subimage s k 0 = (true, s) := by
  unfold seek_subimage
  rw [if_neg (by omega), if_pos h]

theorem seek_success_cases {s s1 : WebpState} {k m : Int}
    (h : seek_subimage s k m = (true, s1)) :
    0 ≤ k ∧ m = 0 ∧ s1.m_subimage = k := by
  unfold seek_subimage at h
  by_cases hc : k < 0 ∨ m ≠ 0
  · rw [if_pos hc] at h
    simp at h
  · rw [if_neg hc] at h
    by_cases hsub : s.m_subimage = k
    · rw [if_pos hsub] at h
      obtain ⟨-, rfl⟩ := Prod.mk.injEq .. ▸ h
      exact ⟨by omega, by omega, hsub⟩
    · rw [if_neg hsub] at h
      cases hd : demuxGetFrame s (k + 1) with
      | none => rw [hd] at h; simp at h
      | some it =>
        rw [hd] at h
        dsimp only at h
        cases hp : it.fragment.decodesTo with
        | none => rw [hp] at h; simp at h
        | some pix =>
          rw [hp] at h
          dsimp only at h
          obtain ⟨-, rfl⟩ := Prod.mk.injEq .. ▸ h
          exact ⟨by omega, by omega, rfl⟩

theorem seek_success_decode {s s1 : WebpState} {k m : Int}
    (hne : s.m_subimage ≠ k) (h : seek_subimage s k m = (true, s1)) :
    ∃ it pix, demuxGetFrame s (k + 1) = some it ∧
      it.fragment.decodesTo = some pix ∧
      s1 = { s with m_iter := some it, m_subimage := k,
                    m_decoded_image := some s.nextId,
                    buffers := s.buffers ++ [⟨s.nextId, pix, 0⟩],
                    nextId := s.nextId + 1,
                    decodeCount := s.decodeCount + 1 } := by
  unfold seek_subimage at h
  by_cases hc : k < 0 ∨ m ≠ 0
  · rw [if_pos hc] at h
    simp at h
  · rw [if_neg hc, if_neg hne] at h
    cases hd : demuxGetFrame s (k + 1) with
    | none => rw [hd] at h; simp at h
    | some it =>
      rw [hd] at h
      dsimp only at h
      cases hp : it.fragment.decodesTo with
      | none => rw [hp] at h; simp at h
      | some pix =>
        rw [hp] at h
        dsimp only at h
        obtain ⟨-, rfl⟩ := Prod.mk.injEq .. ▸ h
        exact ⟨it, pix, rfl, hp, rfl⟩

theorem close_m_subimage (s : WebpState) :
    ((close s).2).m_subimage = s.m_subimage :=
  rfl

theorem close_m_decoded_image (s : WebpState) :
    ((close s).2).m_decoded_image = none :=
  rfl

theorem demuxGetFrame_openInit {c : Container} {w : Nat} {it : Iter}
    (h : demuxGetFrame (openInitState c w) 1 = some it) :
    ∃ f, c.frames.get? 0 = some f ∧
      it = ⟨c.frames.length, f.duration, f⟩ := by
  unfold demuxGetFrame openInitState initState at h
  dsimp only at h
  by_cases hlen : 1 ≤ (1 : Int) ∧ (1 : Int) ≤ (c.frames.length : Int)
  · rw [if_pos hlen] at h
    cases hf : c.frames.get? ((1 : Int) - 1).toNat with
    | none => rw [hf] at h; simp at h
    | some f =>
      rw [hf] at h
      dsimp only at h
      refine ⟨f, ?_, ?_⟩
      · simpa using hf
      · obtain rfl := (Option.some.injEq .. ▸ h).symm
        rfl
  · rw [if_neg hlen] at h
    simp at h

theorem openParsed_success_struct {c : Container} {w : Nat} {s : WebpState}
    (h : openParsed c w = (true, s)) :
    ∃ it pix, demuxGetFrame (openInitState c w) 1 = some it ∧
      it.fragment.decodesTo = some pix ∧
      s = (if 1 < it.num_frames then
             { openInitState c w with
                 m_iter := some it, m_subimage := 0,
                 m_decoded_image := some 0, buffers := [⟨0, pix, 1⟩],
                 nextId := 1, decodeCount := 1, movie := true,
                 framesPerSecond := some (1000, it.duration) }
           else
             { openInitState c w with
                 m_iter := some it, m_subimage := 0,
                 m_decoded_image := some 0, buffers := [⟨0, pix, 1⟩],
                 nextId := 1, decodeCount := 1 }) := by
  unfold openParsed at h
  dsimp only at h
  cases hr : seek_subimage (openInitState c w) 0 0 with
  | mk ok s1 =>
    rw [hr] at h
    cases ok with
    | false => simp at h
    | true =>
      have hne : (openInitState c w).m_subimage ≠ 0 := by
        simp [openInitState, initState]
      obtain ⟨it, pix, hd, hdec, rfl⟩ := seek_success_decode hne hr
      dsimp only at h
      refine ⟨it, pix, hd, hdec, ?_⟩
      by_cases hn : 1 < it.num_frames
      · rw [if_pos hn] at h ⊢
        obtain ⟨-, rfl⟩ := Prod.mk.injEq .. ▸ h
        unfold applyNormalize openInitState initState
        dsimp only
        simp
      · rw [if_neg hn] at h ⊢
        obtain ⟨-, rfl⟩ := Prod.mk.injEq .. ▸ h
        unfold applyNormalize openInitState initState
        dsimp only
        simp

/-! Claim theorems. -/

/-- Claim C1: when the cursor already points at frame `k`, `seek_subimage`
returns success and leaves the whole session state (cursor, buffers,
decode counter, container) unchanged; consequently a second consecutive
`seek(k)` after any successful `seek(k)` returns the same state unchanged,
so the decoded bytes are identical and no second decode happens. -/
theorem seek_idempotent :
    (∀ (s : WebpState) (k : Int), 0 ≤ k → s.m_subimage = k →
        seek_subimage s k 0 = (true, s)) ∧
    (∀ (s s1 : WebpState) (k : Int), seek_subimage s k 0 = (true, s1) →
        seek_subimage s1 k 0 = (true, s1)) := by
  refine ⟨fun s k h0 h => seek_shortcut s k h0 h, fun s s1 k h => ?_⟩
  obtain ⟨h0, -, hsub⟩ := seek_success_cases h
  exact seek_shortcut s1 k h0 hsub

/-- Claim C1 witness: on the opened demo session (cursor at frame 0),
seeking frame 0 again succeeds with the state unchanged. -/
theorem seek_idempotent_witness :
    seek_subimage sDemo 0 0 = (true, sDemo) :=
  seek_idempotent.1 sDemo 0 (by decide) (by decide)

/-- Claim C9: any seek request with a negative subimage index or a nonzero
mip level fails immediately with the state untouched, even when the target
equals the current index. -/
theorem seek_rejects_invalid :
    ∀ (s : WebpState) (k m : Int), k < 0 ∨ m ≠ 0 →
      seek_subimage s k m = (false, s) := by
  intro s k m h
  unfold seek_subimage
  rw [if_pos h]

/-- Claim C9 witness: on the opened demo session, seeking subimage -1 fails
with no state change, and seeking the current subimage 0 at mip level 1
also fails with no state change. -/
theorem seek_rejects_invalid_witness :
    seek_subimage sDemo (-1) 0 = (false, sDemo) ∧
    seek_subimage sDemo 0 1 = (false, sDemo) :=
  ⟨seek_rejects_invalid sDemo (-1) 0 (by decide),
   seek_rejects_invalid sDemo 0 1 (by decide)⟩

/-- Claim C10: `close` does not reset the subimage cursor: afterwards
`current_subimage` still returns the index current before closing, and a
seek to that same index succeeds through the idempotence shortcut even
though the decoded image and demuxer are gone. -/
theorem close_preserves_cursor :
    ∀ s : WebpState,
      current_subimage (close s).2 = current_subimage s ∧
      ((close s).2).m_decoded_image = none ∧
      (0 ≤ s.m_subimage →
        seek_subimage (close s).2 s.m_subimage 0 = (true, (close s).2)) := by
  intro s
  refine ⟨rfl, rfl, fun h0 => seek_shortcut _ _ h0 (close_m_subimage s)⟩

/-- Claim C10 witness: closing the opened demo session (cursor at frame 0)
keeps `current_subimage` at 0, and seeking 0 afterwards succeeds. -/
theorem close_preserves_cursor_witness :
    current_subimage (close sDemo).2 = current_subimage sDemo ∧
    seek_subimage (close sDemo).2 sDemo.m_subimage 0 =
      (true, (close sDemo).2) :=
  ⟨(close_preserves_cursor sDemo).1,
   (close_preserves_cursor sDemo).2.2 (by decide)⟩

/-- Claim C4 (code bug): seeking from decoded frame 0 to frame 1 on the
demo session succeeds and stores the new buffer (id 1), but the previous
buffer (id 0) is never passed to `free`: both stay live, so two decoded
RawImage buffers are live at once and the old one leaks. -/
theorem seek_leaks_previous_buffer :
    (seek_subimage sDemo 1 0).1 = true ∧
    (seek_subimage sDemo 1 0).2.m_decoded_image = some 1 ∧
    (seek_subimage sDemo 1 0).2.buffers.map Buf.id = [0, 1] ∧
    (seek_subimage sDemo 1 0).2.freed = [] := by decide

/-- Claim C5 (code bug): `close` returns success, but because the code
never nulls `m_demux`, a second `close` passes the same demuxer handle to
`WebPDemuxDelete` again - a double delete, so the second call is not
effect-free. -/
theorem close_double_demux_delete :
    (close sDemo).1 = true ∧
    (close sDemo).2.demuxDeleted = [0] ∧
    (close (close sDemo).2).1 = true ∧
    (close (close sDemo).2).2.demuxDeleted = [0, 0] := by decide

/-- Claim C2 counterexample: on the session opened on `cFail` (frame 0
decoded, cursor 0), seeking frame 1 hits a decode failure; the seek fails
but `m_subimage` is left at 1 (not the previous 0) and the previously
decoded RawImage is gone (`m_decoded_image` is NULL), refuting the claim
that a failing seek commits no partial state. -/
theorem seek_decode_failure_commits_state :
    sFail.m_subimage = 0 ∧
    sFail.m_decoded_image = some 0 ∧
    (seek_subimage sFail 1 0).1 = false ∧
    (seek_subimage sFail 1 0).2.m_subimage = 1 ∧
    (seek_subimage sFail 1 0).2.m_decoded_image = none := by decide

/-- Claim C2 as amended: a seek whose frame lookup fails returns failure
with the session state entirely unchanged (previous RawImage intact and
current); a seek whose per-frame decode fails, however, returns failure
with `current_index` set to the target index and the decoded-image pointer
nulled, because the code commits `m_subimage` before decoding and calls
`close()` on decode failure. -/
theorem seek_failure_paths :
    (∀ (s : WebpState) (k : Int), ¬ k < 0 → s.m_subimage ≠ k →
        demuxGetFrame s (k + 1) = none →
        seek_subimage s k 0 = (false, s)) ∧
    (∀ (s : WebpState) (k : Int) (it : Iter), ¬ k < 0 → s.m_subimage ≠ k →
        demuxGetFrame s (k + 1) = some it →
        it.fragment.decodesTo = none →
        (seek_subimage s k 0).1 = false ∧
        (seek_subimage s k 0).2.m_subimage = k ∧
        (seek_subimage s k 0).2.m_decoded_image = none) := by
  constructor
  · intro s k h0 hne hd
    unfold seek_subimage
    rw [if_neg (by omega), if_neg hne, hd]
  · intro s k it h0 hne hd hp
    unfold seek_subimage
    rw [if_neg (by omega), if_neg hne, hd]
    dsimp only
    rw [hp]
    exact ⟨rfl, close_m_subimage _, close_m_decoded_image _⟩

/-- Claim C2 witness: on the demo session, seeking the out-of-range frame 5
fails with the state unchanged; on the `cFail` session, the decode-failing
seek to frame 1 leaves the cursor at 1. -/
theorem seek_failure_paths_witness :
    seek_subimage sDemo 5 0 = (false, sDemo) ∧
    (seek_subimage sFail 1 0).2.m_subimage = 1 :=
  ⟨seek_failure_paths.1 sDemo 5 (by decide) (by decide) (by decide),
   (seek_failure_paths.2 sFail 1 ⟨2, 40, frameBad⟩ (by decide) (by decide)
      (by decide) (by decide)).2.1⟩

/-- Claim C3 counterexample: on the demo session, seeking frame 1 (not
currently decoded) succeeds, yet the newly decoded buffer has had the
color-normalization transform applied zero times, and a scanline of that
frame is immediately readable, exposing the raw unnormalized decode -
refuting the claim that every newly decoded frame is normalized exactly
once before any scanline can be read. -/
theorem seek_new_frame_unnormalized :
    (seek_subimage sDemo 1 0).1 = true ∧
    ((seek_subimage sDemo 1 0).2.buffers.find?
        (fun b => b.id = 1)).map Buf.normCount = some 0 ∧
    (read_native_scanline sDemo 1 0 0).1 = true ∧
    (read_native_scanline sDemo 1 0 0).2.2 = some [0, 255, 0, 255] := by
  decide

/-- Claim C3 as amended: the color-normalization transform is applied
exactly once, over the full raster, to the frame decoded during `open`
(frame 0) before `open` returns; frames decoded by any later seek are
stored with the transform never applied (normalization count 0). -/
theorem normalize_only_at_open :
    (∀ (c : Container) (w : Nat) (s : WebpState),
        openParsed c w = (true, s) →
        ∃ pix, s.m_decoded_image = some 0 ∧ s.buffers = [⟨0, pix, 1⟩]) ∧
    (∀ (s s1 : WebpState) (k : Int), s.m_subimage ≠ k →
        seek_subimage s k 0 = (true, s1) →
        ∃ pix, s1.m_decoded_image = some s.nextId ∧
          s1.buffers = s.buffers ++ [⟨s.nextId, pix, 0⟩]) := by
  constructor
  · intro c w s h
    obtain ⟨it, pix, -, -, rfl⟩ := openParsed_success_struct h
    by_cases hn : 1 < it.num_frames
    · rw [if_pos hn]
      exact ⟨pix, rfl, rfl⟩
    · rw [if_neg hn]
      exact ⟨pix, rfl, rfl⟩
  · intro s s1 k hne h
    obtain ⟨it, pix, -, -, rfl⟩ := seek_success_decode hne h
    exact ⟨pix, rfl, rfl⟩

/-- Claim C3 witness: on the demo container, open leaves frame 0's buffer
normalized exactly once, and the subsequent seek to frame 1 stores a
buffer with normalization count 0. -/
theorem normalize_only_at_open_witness :
    (∃ pix, sDemo.m_decoded_image = some 0 ∧
        sDemo.buffers = [⟨0, pix, 1⟩]) ∧
    (∃ pix, (seek_subimage sDemo 1 0).2.m_decoded_image =
        some sDemo.nextId ∧
      (seek_subimage sDemo 1 0).2.buffers =
        sDemo.buffers ++ [⟨sDemo.nextId, pix, 0⟩]) :=
  ⟨normalize_only_at_open.1 cDemo 1 sDemo (by decide),
   normalize_only_at_open.2 sDemo (seek_subimage sDemo 1 0).2 1
     (by decide) (by decide)⟩

/-- Claim C8: for every successfully opened container, a frame count above
1 yields the animated (movie) flag and a frame-rate rational
(1000, duration of the first frame); a frame count of at most 1 leaves the
flag false and no frame-rate attribute. -/
theorem open_animation_metadata :
    ∀ (c : Container) (w : Nat) (s : WebpState),
      openParsed c w = (true, s) →
      (1 < c.frames.length →
          s.movie = true ∧
          ∃ f, c.frames.get? 0 = some f ∧
            s.framesPerSecond = some (1000, f.duration)) ∧
      (c.frames.length ≤ 1 →
          s.movie = false ∧ s.framesPerSecond = none) := by
  intro c w s h
  obtain ⟨it, pix, hd, -, rfl⟩ := openParsed_success_struct h
  obtain ⟨f, hf, rfl⟩ := demuxGetFrame_openInit hd
  constructor
  · intro hlen
    rw [if_pos hlen]
    exact ⟨rfl, f, hf, rfl⟩
  · intro hlen
    rw [if_neg (by simpa using hlen)]
    exact ⟨rfl, rfl⟩

/-- Claim C8 witness: the two-frame demo container opens with the movie
flag set and frame rate (1000, 40); a one-frame container opens with the
flag unset and no frame rate. -/
theorem open_animation_metadata_witness :
    (sDemo.movie = true ∧
      ∃ f, cDemo.frames.get? 0 = some f ∧
        sDemo.framesPerSecond = some (1000, f.duration)) ∧
    ((openParsed ⟨1, 1, [frameA]⟩ 1).2.movie = false ∧
      (openParsed ⟨1, 1, [frameA]⟩ 1).2.framesPerSecond = none) :=
  ⟨(open_animation_metadata cDemo 1 sDemo (by decide)).1 (by decide),
   (open_animation_metadata ⟨1, 1, [frameA]⟩ 1
      (openParsed ⟨1, 1, [frameA]⟩ 1).2 (by decide)).2 (by decide)⟩

/-- Claim C6: on a session where the requested seek succeeds and the
current RawImage is a live buffer of `canvas_height * row_stride` bytes,
`read_native_scanline` with `0 ≤ y < canvas_height` succeeds and copies
exactly `m_scanline_size` bytes taken from the buffer at byte offset
`y * m_scanline_size`; with `y < 0` or `y ≥ canvas_height` it fails and
copies nothing. -/
theorem read_scanline_copy :
    ∀ (s s1 : WebpState) (sub mip y : Int) (id : Nat) (content : List Nat),
      seek_subimage s sub mip = (true, s1) →
      s1.m_decoded_image = some id →
      bufLookup s1 id = some content →
      content.length = s1.specHeight * s1.m_scanline_size →
      ((0 ≤ y ∧ y < (s1.specHeight : Int)) →
        read_native_scanline s sub mip y =
          (true, s1,
           some ((content.drop (y.toNat * s1.m_scanline_size)).take
                  s1.m_scanline_size)) ∧
        ((content.drop (y.toNat * s1.m_scanline_size)).take
            s1.m_scanline_size).length = s1.m_scanline_size) ∧
      ((y < 0 ∨ (s1.specHeight : Int) ≤ y) →
        read_native_scanline s sub mip y = (false, s1, none)) := by
  intro s s1 sub mip y id content hseek hdec hbuf hlen
  constructor
  · rintro ⟨hy0, hyh⟩
    constructor
    · unfold read_native_scanline
      rw [hseek]
      dsimp only
      rw [if_neg (by omega), hdec]
      dsimp only
      rw [hbuf]
    · have hy : y.toNat < s1.specHeight := by omega
      rw [List.length_take, List.length_drop, hlen, ← Nat.sub_mul]
      have h1 : s1.m_scanline_size ≤
          (s1.specHeight - y.toNat) * s1.m_scanline_size := by
        calc s1.m_scanline_size = 1 * s1.m_scanline_size := (one_mul _).symm
          _ ≤ (s1.specHeight - y.toNat) * s1.m_scanline_size :=
              Nat.mul_le_mul_right _ (by omega)
      exact Nat.min_eq_left h1
  · intro hout
    unfold read_native_scanline
    rw [hseek]
    dsimp only
    rw [if_pos hout]

/-- Claim C6 witness: on the opened demo session, reading row 0 of frame 0
succeeds and copies the 4 bytes of the red pixel; reading row 1 (equal to
the canvas height) fails and copies nothing. -/
theorem read_scanline_copy_witness :
    read_native_scanline sDemo 0 0 0 = (true, sDemo, some [255, 0, 0, 255]) ∧
    read_native_scanline sDemo 0 0 1 = (false, sDemo, none) := by
  have h := read_scanline_copy sDemo sDemo 0 0 0 0 [255, 0, 0, 255]
    (by decide) (by decide) (by decide) (by decide)
  have h1 := read_scanline_copy sDemo sDemo 0 0 1 0 [255, 0, 0, 255]
    (by decide) (by decide) (by decide) (by decide)
  exact ⟨((h.1 (by decide)).1).trans (by decide), h1.2 (by decide)⟩

/-- Claim C7: the per-pixel color-normalization arithmetic (linearize with
exponent 2.2, premultiply by alpha, re-encode with exponent 1/2.2) leaves
the alpha channel of every pixel unchanged; a pixel with alpha 255 keeps
its RGB values exactly (in exact real arithmetic, hence up to rounding in
8-bit); a pixel with alpha 0 has all three RGB channels driven to 0
whatever their input values. -/
theorem normalize_alpha_cases :
    (∀ r g b a : Nat, (normalizePixelBytes r g b a).2.2.2 = byteToUnit a) ∧
    (∀ r g b : Nat, normalizePixelBytes r g b 255 =
        (byteToUnit r, byteToUnit g, byteToUnit b, byteToUnit 255)) ∧
    (∀ r g b : Nat, normalizePixelBytes r g b 0 = (0, 0, 0, 0)) := by
  have hchan1 : ∀ v : ℝ, 0 ≤ v → normalizeChannel v 1 = v := by
    intro v hv
    unfold normalizeChannel
    rw [mul_one, ← Real.rpow_mul hv]
    have he : (2.2 : ℝ) * (1 / 2.2) = 1 := by norm_num
    rw [he, Real.rpow_one]
  have hchan0 : ∀ v : ℝ, normalizeChannel v 0 = 0 := by
    intro v
    unfold normalizeChannel
    rw [mul_zero]
    exact Real.zero_rpow (by norm_num)
  have hb0 : ∀ x : Nat, (0 : ℝ) ≤ byteToUnit x := by
    intro x
    unfold byteToUnit
    positivity
  have h255 : byteToUnit 255 = 1 := by
    unfold byteToUnit
    norm_num
  have h0 : byteToUnit 0 = 0 := by
    unfold byteToUnit
    norm_num
  refine ⟨fun r g b a => rfl, fun r g b => ?_, fun r g b => ?_⟩
  · unfold normalizePixelBytes normalizePixel
    rw [h255, hchan1 _ (hb0 r), hchan1 _ (hb0 g), hchan1 _ (hb0 b)]
  · unfold normalizePixelBytes normalizePixel
    rw [h0, hchan0, hchan0, hchan0]

end Webp
